import Mathlib

/-!
A verification development for the IridiumModemDriver middle layer (src/Modem.c)
and API layer (src/ModemAPI.c).  The C sources are shallowly embedded: module
state becomes explicit records, BYTE/WORD/DWORD arithmetic becomes Nat with
explicit `% 256` / `% 65536` where the C narrows, and every external
collaborator (serial transport, filesystem, timers, power manager, logs) is
passed in as an explicit input or abstracted by a boolean outcome.
-/

set_option maxRecDepth 8000

namespace IridiumModem

/-- AT_CMD_STATES: the protocol-engine state (ATInterface.h, used throughout
src/Modem.c as ATCmdState). -/
inductive ATCmdState
  | poweredDown
  | initting
  | idle
  | sending
  | rcving
  | pgming
  | success
  | failed
  | timedOut
deriving DecidableEq

/-- SUB_STATES: the protocol-engine sub-state (src/Modem.c:86-120). -/
inductive SubState
  | substateNone
  | sendImeiCmd
  | sendMtAlertCmd
  | sendMtAlertRsp
  | sendSbdAutoregCmd
  | sendSbdAutoregRsp
  | sendSbdDownloadCmd
  | sendTextMsg
  | sendReadyCmd
  | sendData
  | sendInitiateTransferCmd
  | sendClearBufCmd
  | sendStatusCmd
  | sendCregCmd
  | sendCsqCmd
  | sendMailboxCheckCmd
  | getMailboxCheckRsp
  | sendModemStateCmd
  | sendHangupCallCmd
  | sendModemVerCmd
  | handleFinalRsp
  | sendCisPortCmd
  | sendCisRingerStateCmd
  | sendCisRelayStateCmd
  | sendCisDownloadConfigCmd
  | cisDownloadConfig
  | sendCisVersionQueryCmd
  | startCisPgmingCmd
  | cisPgmingCmd
  | cisPgmingRsp
  | getData
deriving DecidableEq

/-- MODEM_RESPONSES (src/Modem.h:86-92). -/
inductive ModemResponse
  | mrFailed
  | mrSuccess
  | mrWaiting
  | mrNoResp
deriving DecidableEq

/-- MODEM_ERROR_CODE_RSP (src/Modem.h:99-156). -/
inductive ErrorCode
  | MEC_NONE
  | MEC_ERROR
  | MEC_HW_ERROR
  | MEC_RX_BUFFER_OVERFLOW
  | MEC_RSP_TIMED_OUT
  | MEC_TX_BIN_DATA_TIMEOUT
  | MEC_TX_BIN_DATA_BAD_CHECKSUM
  | MEC_TX_BIN_DATA_BAD_SIZE
  | MEC_SBDI_GSS_TIMEOUT
  | MEC_SBDI_GSS_Q_FULL
  | MEC_SBDI_MO_SEGMENT_ERR
  | MEC_SBDI_INCOMPLETE_SESSION
  | MEC_SBDI_SEGMENT_SIZE_ERR
  | MEC_SBDI_GSS_ACCESS_DENIED
  | MEC_SBDI_SBD_BLOCKED
  | MEC_SBDI_ISU_TIMEOUT
  | MEC_SBDI_RF_DROP
  | MEC_SBDI_PROTOCOL_ERR
  | MEC_SBDI_NO_NETWORK_SERVICE
  | MEC_SBDI_ISU_BUSY
  | MEC_SBDI_FAIL
  | MEC_CLEAR_MODEM_BUFFER_ERROR
  | MEC_FILE_OPEN_ERR
  | MEC_FILE_READ_ERR
  | MEC_FILE_WRITE_ERR
  | MEC_TRUNCATED_FILE
  | MEC_CREG_NOT_REGISTERED
  | MEC_CREG_REGISTERED_HOME
  | MEC_CREG_SEARCHING
  | MEC_CREG_DENIED
  | MEC_CREG_UNKNOWN
  | MEC_CREG_REGISTERED_ROAMING
  | MEC_CSQ_ERROR
  | MEC_ACTIVE_CALL_STATUS
  | MEC_HELD_CALL_STATUS
  | MEC_DIALING_CALL_STATUS
  | MEC_INCOMING_CALL_STATUS
  | MEC_WAITING_CALL_STATUS
  | MEC_IDLE_CALL_STATUS
  | MEC_RX_NO_MSG_WAITING
  | MEC_RX_BAD_CHECKSUM
  | MEC_RX_BAD_FILELENGTH
  | MEC_MODEM_POWERED_DOWN
  | MEC_CIS_RINGER_OFF
  | MEC_CIS_RINGER_ON
  | MEC_CIS_RELAY1_OFF
  | MEC_CIS_RELAY1_ON
  | MEC_CIS_RELAY2_OFF
  | MEC_CIS_RELAY2_ON
deriving DecidableEq

/-- CIS_PORT: the shared-UART routing bit (set through SetCISPort; DATA_PORT
routes to the modem, PROGRAMMING_PORT to the aux/CIS board). -/
inductive CISPort
  | dataPort
  | programmingPort
deriving DecidableEq

/-- CIS_CMD_LIST (src/Modem.c:214-233). -/
inductive CISCmd
  | CIS_CMD_RELAY_1_OFF
  | CIS_CMD_RELAY_1_ON
  | CIS_CMD_RELAY_1_STATUS
  | CIS_CMD_RELAY_2_OFF
  | CIS_CMD_RELAY_2_ON
  | CIS_CMD_RELAY_2_STATUS
  | CIS_CMD_RINGER_OFF
  | CIS_CMD_RINGER_ON
  | CIS_CMD_RINGER_STATUS
  | CIS_CMD_RESET
  | CIS_CMD_DOWNLOAD_CONFIG
  | CIS_CMD_VERSION_CHECK
  | CIS_CMD_LOAD_FLASH
  | CIS_CMD_CANCEL_LOAD_FLASH
  | CIS_CMD_F1
  | CIS_CMD_F4
deriving DecidableEq

/-- MAILBOXCHECK_RSP values (src/Modem.h:76-81); parsers store raw casts of
decimal fields into this BYTE, so it is modelled as Nat. -/
def NO_MSG : Nat := 0

def SUCCESSFUL_MSG : Nat := 1

def FAILED_MSG : Nat := 2

/-- MODEM_INFO_STRUCT (src/Modem.c:293-310).  BYTE/WORD fields are Nat; the
two MSN fields are C strings tokenised straight out of the response line. -/
structure ModemInfo where
  byMOStatus : Nat
  byMTStatus : Nat
  szMOMSN : String
  szMTMSN : String
  wMTLength : Nat
  byMTQueueNbr : Nat
  byRAFlag : Nat
  dwTxMsgLen : Nat
  iSignalStrength : Int
  cmdEnum : CISCmd
  byCallStatus : Nat
  bRingersOn : Bool
  bRelayOn1 : Nat
  bRelayOn2 : Nat
  byCurrRelayNbr : Nat
deriving DecidableEq

/-- A concrete MODEM_INFO_STRUCT used by the witness/counterexample inputs. -/
def modemInfo0 : ModemInfo :=
  { byMOStatus := 0, byMTStatus := NO_MSG, szMOMSN := "00123", szMTMSN := "00000"
    wMTLength := 0, byMTQueueNbr := 0, byRAFlag := 0, dwTxMsgLen := 0
    iSignalStrength := -1, cmdEnum := .CIS_CMD_RESET, byCallStatus := 3
    bRingersOn := true, bRelayOn1 := 0, bRelayOn2 := 0, byCurrRelayNbr := 0 }

/-! ## C10: the satellite response timeout setter/getter

`wSatelliteTimeout` is a 16-bit WORD (src/Modem.c:451), so the assignment in
SetModemCmdRspTimeInSeconds (src/Modem.c:1558-1562) keeps only
`(t * 1000) mod 2^16`; the argument itself is a BYTE. -/

/-- src/Modem.c:1558-1562: `wSatelliteTimeout = (WORD)byTimeoutTime_in_seconds * 1000UL;`
Returns the stored WORD value (milliseconds, truncated to 16 bits). -/
def SetModemCmdRspTimeInSeconds (t : Nat) : Nat :=
  (t % 256) * 1000 % 65536

/-- src/Modem.c:2904-2907: `return (BYTE)(wSatelliteTimeout/1000UL);` -/
def GetModemCmdRspTimeInSeconds (wSatelliteTimeout : Nat) : Nat :=
  wSatelliteTimeout / 1000 % 256

/-- C10 counterexample: at t = 67 the stored timeout is 1464 ms, which is NOT
smaller than one second (the claim says every t in 66..=255 wraps below one
second), although the round trip does fail there. -/
theorem SetModemCmdRspTimeInSeconds_not_always_below_one_second :
    SetModemCmdRspTimeInSeconds 67 = 1464 ∧
    ¬ SetModemCmdRspTimeInSeconds 67 < 1000 ∧
    GetModemCmdRspTimeInSeconds (SetModemCmdRspTimeInSeconds 67) ≠ 67 := by
  decide

/-- C10 (amended): the setter stores (t*1000) mod 2^16; the get/set round trip
holds exactly for t in 0..=65 (hence on all of 1..=65) and fails for every
t in 66..=255; the stored value always equals t*1000 - 65536*k for some k
but is not always below one second. -/
theorem SetModemCmdRspTimeInSeconds_roundtrip (t : Nat) (h : t < 256) :
    SetModemCmdRspTimeInSeconds t = t * 1000 % 65536 ∧
    (t ≤ 65 → GetModemCmdRspTimeInSeconds (SetModemCmdRspTimeInSeconds t) = t) ∧
    (66 ≤ t → GetModemCmdRspTimeInSeconds (SetModemCmdRspTimeInSeconds t) ≠ t) := by
  have hall : ∀ u : Nat, u < 256 →
      SetModemCmdRspTimeInSeconds u = u * 1000 % 65536 ∧
      (u ≤ 65 → GetModemCmdRspTimeInSeconds (SetModemCmdRspTimeInSeconds u) = u) ∧
      (66 ≤ u → GetModemCmdRspTimeInSeconds (SetModemCmdRspTimeInSeconds u) ≠ u) := by
    decide
  exact hall t h

/-- C10 witness: the round-trip theorem applied at the concrete inputs 65 and 66. -/
theorem SetModemCmdRspTimeInSeconds_roundtrip_witness :
    GetModemCmdRspTimeInSeconds (SetModemCmdRspTimeInSeconds 65) = 65 ∧
    GetModemCmdRspTimeInSeconds (SetModemCmdRspTimeInSeconds 66) ≠ 66 :=
  ⟨(SetModemCmdRspTimeInSeconds_roundtrip 65 (by decide)).2.1 (by decide),
   (SetModemCmdRspTimeInSeconds_roundtrip 66 (by decide)).2.2 (by decide)⟩

/-! ## The protocol-engine state and the binary-upload path (C1, C4, C5)

The engine's module-level variables (src/Modem.c:424-452) that the verified
fragments read or write.  The two timers are modelled as armed/not-armed bits;
expiry is an input to the tick.  The line-assembly buffer content is not
needed by these claims, only its index. -/

structure EngineState where
  atCmdState : ATCmdState
  subState : SubState
  errorCodeRsp : ErrorCode
  info : ModemInfo
  cisPort : CISPort
  respTimerRunning : Bool
  cisTimerRunning : Bool
  wRxIndex : Nat
  byBinMsgBuffer : List Nat
deriving DecidableEq

/-- MAX_FILE_LEN: the modem MO buffer limit.  The macro lives in a header
outside src/; src/Modem.c:3047-3048 documents it: short burst data binary
messages are limited to 1960 bytes, excluding the 2 byte checksum. -/
def MAX_FILE_LEN : Nat := 1960

/-- MAX_CMD_LINE_LEN: the line-assembly buffer size (spec: the source uses 256). -/
def MAX_CMD_LINE_LEN : Nat := 256

/-- ClearBuffers (src/Modem.c:4995-5010): flush the serial queues, switch the
port routing, zero the line-assembly index. -/
def ClearBuffers (s : EngineState) (portState : CISPort) : EngineState :=
  { s with cisPort := portState, wRxIndex := 0 }

/-- A default engine state for concrete witness inputs. -/
def engine0 : EngineState :=
  { atCmdState := .idle, subState := .substateNone, errorCodeRsp := .MEC_NONE
    info := modemInfo0, cisPort := .dataPort, respTimerRunning := false
    cisTimerRunning := false, wRxIndex := 0, byBinMsgBuffer := [] }

/-- SendBinaryBuffer (src/Modem.c:853-888).  Returns the C function's BOOL and
the state after the call; `pbyDataBuf`/`wMsgSize` are the arguments.  The
buffer is zeroed (MemSet) before the first `dwTxMsgLen` bytes are copied in. -/
def SendBinaryBuffer (s : EngineState) (pbyDataBuf : List Nat) (wMsgSize : Nat) :
    Bool × EngineState :=
  if s.atCmdState ≠ .idle then
    (false, s)
  else
    -- modemInfo.dwTxMsgLen = wMsgSize, then range checks
    if wMsgSize > MAX_FILE_LEN then
      -- truncate and flag, then proceed
      let s := { s with info := { s.info with dwTxMsgLen := MAX_FILE_LEN }
                        errorCodeRsp := .MEC_TRUNCATED_FILE }
      let s := { s with byBinMsgBuffer :=
                   pbyDataBuf.take MAX_FILE_LEN ++
                     List.replicate (MAX_FILE_LEN - MAX_FILE_LEN) 0 }
      (true, { s with atCmdState := .sending, subState := .sendReadyCmd
                      respTimerRunning := true })
    else if wMsgSize = 0 then
      (false, { s with errorCodeRsp := .MEC_TX_BIN_DATA_BAD_SIZE })
    else
      let s := { s with info := { s.info with dwTxMsgLen := wMsgSize } }
      let s := { s with byBinMsgBuffer :=
                   pbyDataBuf.take wMsgSize ++
                     List.replicate (MAX_FILE_LEN - wMsgSize) 0 }
      (true, { s with atCmdState := .sending, subState := .sendReadyCmd
                      respTimerRunning := true })

/-- SendBinaryDataBuffer (src/Modem.c:3091-3116): compute the 16-bit sum of
the first `dwTxMsgLen` buffer bytes, then send the payload followed by the
checksum, high byte first (HIBYTE then LOBYTE).  Returns the exact byte
sequence handed to ModemPortSendBuffer. -/
def SendBinaryDataBuffer (byBinMsgBuffer : List Nat) (dwTxMsgLen : Nat) : List Nat :=
  let wCheckSum := (byBinMsgBuffer.take dwTxMsgLen).sum % 65536
  byBinMsgBuffer.take dwTxMsgLen ++ [wCheckSum / 256, wCheckSum % 256]

/-- C4: for any payload P accepted by SendBinaryBuffer (bytes, non-empty, at
most MAX_FILE_LEN), the bytes transmitted after the READY response are exactly
P followed by the two checksum bytes, sum mod 2^16, high byte first. -/
theorem SendBinaryBuffer_then_transmit (s : EngineState) (P : List Nat)
    (hidle : s.atCmdState = .idle)
    (_hbytes : ∀ b ∈ P, b < 256)
    (hpos : 0 < P.length) (hlen : P.length ≤ MAX_FILE_LEN) :
    (SendBinaryBuffer s P P.length).1 = true ∧
    SendBinaryDataBuffer (SendBinaryBuffer s P P.length).2.byBinMsgBuffer
        (SendBinaryBuffer s P P.length).2.info.dwTxMsgLen =
      P ++ [P.sum % 65536 / 256, P.sum % 65536 % 256] := by
  have hne : ¬ P.length > MAX_FILE_LEN := by omega
  have hz : ¬ P.length = 0 := by omega
  have hres : SendBinaryBuffer s P P.length =
      (true, { s with info := { s.info with dwTxMsgLen := P.length }
                      byBinMsgBuffer := P ++ List.replicate (MAX_FILE_LEN - P.length) 0
                      atCmdState := .sending, subState := .sendReadyCmd
                      respTimerRunning := true }) := by
    simp [SendBinaryBuffer, hidle, hne, hz]
  rw [hres]
  refine ⟨rfl, ?_⟩
  simp only [SendBinaryDataBuffer]
  rw [List.take_left' rfl]

/-- C4 witness: the theorem applied at a concrete idle state and payload. -/
theorem SendBinaryBuffer_then_transmit_witness :
    (SendBinaryBuffer engine0 [1, 2, 3] 3).1 = true ∧
    SendBinaryDataBuffer (SendBinaryBuffer engine0 [1, 2, 3] 3).2.byBinMsgBuffer
        (SendBinaryBuffer engine0 [1, 2, 3] 3).2.info.dwTxMsgLen =
      [1, 2, 3] ++ [0, 6] := by
  have h := SendBinaryBuffer_then_transmit engine0 [1, 2, 3] (by decide)
    (by decide) (by decide) (by decide)
  simpa using h

/-! ## C2: the SBDIX response parser (GetInitiateSBDSessionRsp, src/Modem.c:3449-3582)

The line has already been assembled and tokenised into its six fields
(StringTok calls at src/Modem.c:3479-3486); the embedding starts from the
tokenised values, with the numeric fields given as the StringToInt results
(the C then narrows each with a BYTE or WORD cast). -/

/-- The fields of a `+SBDIX:` line, in source order. -/
structure SbdixFields where
  moStatus : Nat
  moMsn : String
  mtStatus : Nat
  mtMsn : String
  mtLength : Nat
  mtQueueNbr : Nat
deriving DecidableEq

/-- The verdict of the mo_status switch (src/Modem.c:3492-3578): either one of
the five success codes, a failure with its error code (and, for code 16 only,
a system-log escalation), or no case matched (the function falls through and
returns MR_WAITING). -/
inductive MOClass
  | success
  | fail (err : ErrorCode) (syslogSbdBlocked : Bool)
  | waiting
deriving DecidableEq

/-- The switch over the BYTE-cast mo_status (src/Modem.c:3492-3578), case by
case in source order.  Codes 5..=9 (RFU_1..RFU_5), 20..=31 (RFU_6..RFU_17),
33/34 (RFU_18/RFU_19) and 36 (RFU_20) all share the MEC_SBDI_FAIL arm. -/
def classifyMOStatus (mo : Nat) : MOClass :=
  match mo with
  | 0 | 1 | 2 | 3 | 4 => .success
  | 10 => .fail .MEC_SBDI_GSS_TIMEOUT false
  | 11 => .fail .MEC_SBDI_GSS_Q_FULL false
  | 12 => .fail .MEC_SBDI_MO_SEGMENT_ERR false
  | 13 => .fail .MEC_SBDI_INCOMPLETE_SESSION false
  | 14 => .fail .MEC_SBDI_SEGMENT_SIZE_ERR false
  | 15 => .fail .MEC_SBDI_GSS_ACCESS_DENIED false
  | 16 => .fail .MEC_SBDI_SBD_BLOCKED true
  | 17 => .fail .MEC_SBDI_ISU_TIMEOUT false
  | 18 => .fail .MEC_SBDI_RF_DROP false
  | 19 => .fail .MEC_SBDI_PROTOCOL_ERR false
  | 5 | 6 | 7 | 8 | 9
  | 20 | 21 | 22 | 23 | 24 | 25 | 26 | 27 | 28 | 29 | 30 | 31
  | 33 | 34 | 36 => .fail .MEC_SBDI_FAIL false
  | 32 => .fail .MEC_SBDI_NO_NETWORK_SERVICE false
  | 35 => .fail .MEC_SBDI_ISU_BUSY false
  | _ => .waiting

/-- The error code the mo_status switch stores into errorCodeRsp (`none` means
the module variable is left untouched). -/
def moErrorCode (mo : Nat) : Option ErrorCode :=
  match classifyMOStatus mo with
  | .fail e _ => some e
  | _ => none

/-- Whether the mo_status switch calls ReportSystemLogError(SYS_LOG_SBD_BLOCKED)
(src/Modem.c:3528-3532, only in the code-16 arm). -/
def moSysLog (mo : Nat) : Bool :=
  match classifyMOStatus mo with
  | .fail _ s => s
  | _ => false

/-- The MODEM_RESPONSES value the mo_status switch returns. -/
def moResponse (mo : Nat) : ModemResponse :=
  match classifyMOStatus mo with
  | .success => .mrSuccess
  | .fail _ _ => .mrFailed
  | .waiting => .mrWaiting

/-- The result of one complete GetInitiateSBDSessionRsp parse. -/
structure SbdixResult where
  info : ModemInfo
  errorCodeRsp : Option ErrorCode
  sysLogSbdBlocked : Bool
  response : ModemResponse
deriving DecidableEq

/-- GetInitiateSBDSessionRsp (src/Modem.c:3449-3582) after the header has been
found and the six fields tokenised: mo/mt status, MOMSN and MTMSN are stored
unconditionally (src/Modem.c:3482-3490); mt_length and mt_queue_nbr are
populated only in the success arm (src/Modem.c:3500-3501). -/
def GetInitiateSBDSessionRsp (info : ModemInfo) (f : SbdixFields) : SbdixResult :=
  let mo := f.moStatus % 256
  let info := { info with byMOStatus := mo
                          byMTStatus := f.mtStatus % 256
                          szMOMSN := f.moMsn, szMTMSN := f.mtMsn }
  { info := if classifyMOStatus mo = .success then
              { info with wMTLength := f.mtLength % 65536
                          byMTQueueNbr := f.mtQueueNbr % 256 }
            else info
    errorCodeRsp := moErrorCode mo
    sysLogSbdBlocked := moSysLog mo
    response := moResponse mo }

/-- C2 counterexample: mo_status = 5 (RFU "failure" code below 10) maps to
MEC_SBDI_FAIL, although the claim allows only 20..=31 and 33..=34 there; the
same happens at 36 (shown for completeness in the amended theorem). -/
theorem GetInitiateSBDSessionRsp_fail_set_counterexample :
    (GetInitiateSBDSessionRsp modemInfo0
        { moStatus := 5, moMsn := " 00124", mtStatus := 0, mtMsn := " 00000"
          mtLength := 0, mtQueueNbr := 0 }).errorCodeRsp = some .MEC_SBDI_FAIL ∧
    ¬ ((20 ≤ 5 ∧ 5 ≤ 31) ∨ 5 = 33 ∨ 5 = 34) := by
  decide

/-- Helper for C2: the mo_status switch, characterised over all BYTE values. -/
theorem classifyMOStatus_spec (mo : Nat) (h : mo < 256) :
    (classifyMOStatus mo = .success ↔ mo ≤ 4) ∧
    (moErrorCode mo = some .MEC_SBDI_FAIL ↔
      (5 ≤ mo ∧ mo ≤ 9) ∨ (20 ≤ mo ∧ mo ≤ 31) ∨ mo = 33 ∨ mo = 34 ∨ mo = 36) ∧
    (moSysLog mo = true ↔ mo = 16) ∧
    (mo = 16 → moErrorCode mo = some .MEC_SBDI_SBD_BLOCKED ∧ moResponse mo = .mrFailed) ∧
    (moResponse mo = .mrSuccess ↔ mo ≤ 4) := by
  have hall : ∀ u : Nat, u < 256 →
      (classifyMOStatus u = .success ↔ u ≤ 4) ∧
      (moErrorCode u = some .MEC_SBDI_FAIL ↔
        (5 ≤ u ∧ u ≤ 9) ∨ (20 ≤ u ∧ u ≤ 31) ∨ u = 33 ∨ u = 34 ∨ u = 36) ∧
      (moSysLog u = true ↔ u = 16) ∧
      (u = 16 → moErrorCode u = some .MEC_SBDI_SBD_BLOCKED ∧ moResponse u = .mrFailed) ∧
      (moResponse u = .mrSuccess ↔ u ≤ 4) := by
    decide
  exact hall mo h

/-- C2 (amended): writing mo for the BYTE-cast mo_status field, the parser
returns SUCCESS iff mo is in 0..=4, and only then populates mt_length and
mt_queue_nbr; it records MEC_SBDI_FAIL exactly for mo in
5..=9 ∪ 20..=31 ∪ {33, 34, 36}; and mo = 16 records MEC_SBDI_SBD_BLOCKED,
escalates the system-log hardware error, and fails the command — the
escalation happens for no other code. -/
theorem GetInitiateSBDSessionRsp_spec (info : ModemInfo) (f : SbdixFields) :
    ((GetInitiateSBDSessionRsp info f).response = .mrSuccess ↔ f.moStatus % 256 ≤ 4) ∧
    (f.moStatus % 256 ≤ 4 →
      (GetInitiateSBDSessionRsp info f).info.wMTLength = f.mtLength % 65536 ∧
      (GetInitiateSBDSessionRsp info f).info.byMTQueueNbr = f.mtQueueNbr % 256) ∧
    (¬ f.moStatus % 256 ≤ 4 →
      (GetInitiateSBDSessionRsp info f).info.wMTLength = info.wMTLength ∧
      (GetInitiateSBDSessionRsp info f).info.byMTQueueNbr = info.byMTQueueNbr) ∧
    ((GetInitiateSBDSessionRsp info f).errorCodeRsp = some .MEC_SBDI_FAIL ↔
      (5 ≤ f.moStatus % 256 ∧ f.moStatus % 256 ≤ 9) ∨
      (20 ≤ f.moStatus % 256 ∧ f.moStatus % 256 ≤ 31) ∨
      f.moStatus % 256 = 33 ∨ f.moStatus % 256 = 34 ∨ f.moStatus % 256 = 36) ∧
    (f.moStatus % 256 = 16 →
      (GetInitiateSBDSessionRsp info f).errorCodeRsp = some .MEC_SBDI_SBD_BLOCKED ∧
      (GetInitiateSBDSessionRsp info f).sysLogSbdBlocked = true ∧
      (GetInitiateSBDSessionRsp info f).response = .mrFailed) ∧
    ((GetInitiateSBDSessionRsp info f).sysLogSbdBlocked = true → f.moStatus % 256 = 16) := by
  have hlt : f.moStatus % 256 < 256 := Nat.mod_lt _ (by omega)
  obtain ⟨h1, h2, h3, h4, h5⟩ := classifyMOStatus_spec (f.moStatus % 256) hlt
  refine ⟨by simpa [GetInitiateSBDSessionRsp] using h5, ?_, ?_,
    by simpa [GetInitiateSBDSessionRsp] using h2,
    ?_, by simpa [GetInitiateSBDSessionRsp] using h3.mp⟩
  · intro hle
    have hcl : classifyMOStatus (f.moStatus % 256) = .success := h1.mpr hle
    simp [GetInitiateSBDSessionRsp, hcl]
  · intro hle
    have hcl : classifyMOStatus (f.moStatus % 256) ≠ .success := fun hc =>
      hle (h1.mp hc)
    simp [GetInitiateSBDSessionRsp, hcl]
  · intro h16
    obtain ⟨he, hr⟩ := h4 h16
    exact ⟨by simpa [GetInitiateSBDSessionRsp] using he, by simp [GetInitiateSBDSessionRsp, moSysLog] at h3 ⊢; exact h3.mpr h16,
      by simpa [GetInitiateSBDSessionRsp] using hr⟩

/-- C2 witness: the amended theorem applied at concrete inputs (mo_status 16). -/
theorem GetInitiateSBDSessionRsp_spec_witness :
    (GetInitiateSBDSessionRsp modemInfo0
        { moStatus := 16, moMsn := " 00124", mtStatus := 0, mtMsn := " 00000"
          mtLength := 0, mtQueueNbr := 0 }).errorCodeRsp = some .MEC_SBDI_SBD_BLOCKED ∧
    (GetInitiateSBDSessionRsp modemInfo0
        { moStatus := 16, moMsn := " 00124", mtStatus := 0, mtMsn := " 00000"
          mtLength := 0, mtQueueNbr := 0 }).sysLogSbdBlocked = true ∧
    (GetInitiateSBDSessionRsp modemInfo0
        { moStatus := 16, moMsn := " 00124", mtStatus := 0, mtMsn := " 00000"
          mtLength := 0, mtQueueNbr := 0 }).response = .mrFailed :=
  (GetInitiateSBDSessionRsp_spec modemInfo0
    { moStatus := 16, moMsn := " 00124", mtStatus := 0, mtMsn := " 00000"
      mtLength := 0, mtQueueNbr := 0 }).2.2.2.2.1 (by decide)

/-! ## C5: the modem response timeout branch of UpdateModemState
(src/Modem.c:1651-1686) -/

/-- The body of `if( TimerExpired( thRespTimeOut ) )` in UpdateModemState
(src/Modem.c:1651-1686): switch the port back to DATA_PORT; if the sub-state
is SEND_STATUS_CMD (the SBDSX probe) set mt_status to FAILED; record
MEC_RSP_TIMED_OUT unless the sub-state is SEND_STATUS_CMD or SEND_CSQ_CMD;
go to AT_CMD_TIMED_OUT and stop the timer. -/
def respTimeoutStep (s : EngineState) : EngineState :=
  let s := { s with cisPort := .dataPort }
  let s := if s.subState = .sendStatusCmd then
             { s with info := { s.info with byMTStatus := FAILED_MSG } }
           else s
  let s := if s.subState ≠ .sendStatusCmd ∧ s.subState ≠ .sendCsqCmd then
             { s with errorCodeRsp := .MEC_RSP_TIMED_OUT }
           else s
  { s with atCmdState := .timedOut, respTimerRunning := false }

/-- Shared helper: the timeout step always restores DATA_PORT and lands in
TIMED_OUT. -/
theorem respTimeoutStep_basic (s : EngineState) :
    (respTimeoutStep s).cisPort = .dataPort ∧
    (respTimeoutStep s).atCmdState = .timedOut := by
  unfold respTimeoutStep
  rcases Decidable.em (s.subState = .sendStatusCmd) with hst | hst <;>
    rcases Decidable.em (s.subState = .sendCsqCmd) with hcs | hcs <;>
      simp [hst, hcs]

/-- C5: on modem response timeout the engine restores DATA_PORT routing,
enters TIMED_OUT, records MEC_RSP_TIMED_OUT except for the SBDSX
(SEND_STATUS_CMD) and CSQ (SEND_CSQ_CMD) probes, whose timeouts leave the
error code untouched, and sets mt_status to FAILED exactly when the sub-state
was the SBDSX probe. -/
theorem respTimeoutStep_spec (s : EngineState) :
    (respTimeoutStep s).cisPort = .dataPort ∧
    (respTimeoutStep s).atCmdState = .timedOut ∧
    (respTimeoutStep s).errorCodeRsp =
      (if s.subState = .sendStatusCmd ∨ s.subState = .sendCsqCmd then
        s.errorCodeRsp else .MEC_RSP_TIMED_OUT) ∧
    (respTimeoutStep s).info.byMTStatus =
      (if s.subState = .sendStatusCmd then FAILED_MSG else s.info.byMTStatus) := by
  unfold respTimeoutStep
  rcases Decidable.em (s.subState = .sendStatusCmd) with hst | hst <;>
    rcases Decidable.em (s.subState = .sendCsqCmd) with hcs | hcs <;>
      simp [hst, hcs]

/-! ## C1: command admission requires an idle engine
(dispatch functions, src/Modem.c:717-1449)

Each public dispatch is translated with its externals as inputs:
file length / open / read results for SendBinaryFile, the CIS power bit for
the aux-board commands (SendCISPortCmd, src/Modem.c:3132-3156).  SendCommand
(src/Modem.c:3001-3034) clears the buffers to DATA_PORT and arms the modem
response timer. -/

/-- SendCommand (src/Modem.c:3001-3034): clear buffers on DATA_PORT, pick
SBDIX/SBDIXA for satellite commands by the RA flag, send, start the timer. -/
def SendCommand (s : EngineState) : EngineState :=
  let s := ClearBuffers s .dataPort
  { s with respTimerRunning := true }

/-- SendCISPortCmd (src/Modem.c:3132-3156): fails when the CIS board is not
powered; otherwise clears buffers on PROGRAMMING_PORT, sends the command
framed in carriage returns, arms the CIS timer and enters
AT_CMD_PGMING / SEND_CIS_PORT_CMD. -/
def SendCISPortCmd (s : EngineState) (cisPowered : Bool) : Bool × EngineState :=
  if ¬ cisPowered then
    (false, s)
  else
    let s := ClearBuffers s .programmingPort
    (true, { s with cisTimerRunning := true, atCmdState := .pgming
                    subState := .sendCisPortCmd })

/-- SendWriteTextMsgCmd (src/Modem.c:717-748). -/
def SendWriteTextMsgCmd (s : EngineState) : Bool × EngineState :=
  if s.atCmdState ≠ .idle then
    (false, s)
  else
    let s := ClearBuffers s .dataPort
    (true, { s with atCmdState := .sending, subState := .sendTextMsg
                    respTimerRunning := true })

/-- SendBinaryFile (src/Modem.c:770-834); the filesystem is external, so the
file length and the open/read outcomes are inputs. -/
def SendBinaryFile (s : EngineState) (fileLen : Nat) (openOk readOk : Bool) :
    Bool × EngineState :=
  if s.atCmdState ≠ .idle then
    (false, s)
  else
    let s := if fileLen > MAX_FILE_LEN then
               { s with info := { s.info with dwTxMsgLen := MAX_FILE_LEN }
                        errorCodeRsp := .MEC_TRUNCATED_FILE }
             else { s with info := { s.info with dwTxMsgLen := fileLen } }
    if fileLen = 0 then
      (false, { s with errorCodeRsp := .MEC_TX_BIN_DATA_BAD_SIZE })
    else if ¬ openOk then
      (false, { s with errorCodeRsp := .MEC_FILE_OPEN_ERR })
    else if ¬ readOk then
      (false, { s with errorCodeRsp := .MEC_FILE_READ_ERR })
    else
      (true, { s with atCmdState := .sending, subState := .sendReadyCmd
                      respTimerRunning := true })

/-- CheckGateway (src/Modem.c:908-922). -/
def CheckGateway (s : EngineState) : Bool × EngineState :=
  if s.atCmdState ≠ .idle then
    (false, s)
  else
    (true, { SendCommand s with atCmdState := .sending, subState := .sendStatusCmd })

/-- CheckMailbox (src/Modem.c:940-956). -/
def CheckMailbox (s : EngineState) : Bool × EngineState :=
  if s.atCmdState ≠ .idle then
    (false, s)
  else
    (true, { SendCommand s with atCmdState := .sending
                                subState := .sendMailboxCheckCmd })

/-- SendCSQCmd (src/Modem.c:971-985). -/
def SendCSQCmd (s : EngineState) : Bool × EngineState :=
  if s.atCmdState ≠ .idle then
    (false, s)
  else
    (true, { SendCommand s with atCmdState := .sending, subState := .sendCsqCmd })

/-- SendReadBinaryFileCmd (src/Modem.c:1002-1018). -/
def SendReadBinaryFileCmd (s : EngineState) : Bool × EngineState :=
  if s.atCmdState ≠ .idle then
    (false, s)
  else
    (true, { SendCommand s with atCmdState := .rcving, subState := .getData })

/-- SendCLCCCmd (src/Modem.c:1034-1051); resets the cached call status to
AT_RSP_INVALID_CALL_STATUS (= 3, src/Modem.h:58-69). -/
def SendCLCCCmd (s : EngineState) : Bool × EngineState :=
  if s.atCmdState ≠ .idle then
    (false, s)
  else
    let s := SendCommand s
    let s := { s with info := { s.info with byCallStatus := 3 } }
    (true, { s with atCmdState := .sending, subState := .sendModemStateCmd })

/-- SendCallHangupCmd (src/Modem.c:1066-1080). -/
def SendCallHangupCmd (s : EngineState) : Bool × EngineState :=
  if s.atCmdState ≠ .idle then
    (false, s)
  else
    (true, { SendCommand s with atCmdState := .sending
                                subState := .sendHangupCallCmd })

/-- SendCREGCmd (src/Modem.c:1095-1108). -/
def SendCREGCmd (s : EngineState) : Bool × EngineState :=
  if s.atCmdState ≠ .idle then
    (false, s)
  else
    (true, { SendCommand s with atCmdState := .sending, subState := .sendCregCmd })

/-- The aux-board admission gate shared by all CIS dispatches
(src/Modem.c:1128-1138 and the like): IDLE and POWERED_DOWN pass, everything
else returns FALSE. -/
def cisGateOpen (st : ATCmdState) : Bool :=
  match st with
  | .idle => true
  | .poweredDown => true
  | _ => false

/-- SendDownloadCISCmd (src/Modem.c:1123-1146). -/
def SendDownloadCISCmd (s : EngineState) (cisPowered : Bool) : Bool × EngineState :=
  if ¬ cisGateOpen s.atCmdState then
    (false, s)
  else
    let s := { s with info := { s.info with cmdEnum := .CIS_CMD_DOWNLOAD_CONFIG } }
    let r := SendCISPortCmd s cisPowered
    (r.1, { r.2 with subState := .sendCisDownloadConfigCmd })

/-- SendProgramCISCmd (src/Modem.c:1161-1185). -/
def SendProgramCISCmd (s : EngineState) (cisPowered : Bool) : Bool × EngineState :=
  if ¬ cisGateOpen s.atCmdState then
    (false, s)
  else
    let s := { s with info := { s.info with cmdEnum := .CIS_CMD_VERSION_CHECK } }
    let r := SendCISPortCmd s cisPowered
    (r.1, { r.2 with subState := .sendCisVersionQueryCmd })

/-- SendCISResetCmd (src/Modem.c:1200-1217). -/
def SendCISResetCmd (s : EngineState) (cisPowered : Bool) : Bool × EngineState :=
  if ¬ cisGateOpen s.atCmdState then
    (false, s)
  else
    let s := { s with info := { s.info with cmdEnum := .CIS_CMD_RESET } }
    SendCISPortCmd s cisPowered

/-- SendSetRingerCmd (src/Modem.c:1234-1264); the ringer cache is updated
before the command is pushed (reverse polarity lives in the command table). -/
def SendSetRingerCmd (s : EngineState) (bRingerState : Bool) (cisPowered : Bool) :
    Bool × EngineState :=
  if ¬ cisGateOpen s.atCmdState then
    (false, s)
  else
    let s := if bRingerState then
               { s with info := { s.info with cmdEnum := .CIS_CMD_RINGER_ON
                                              bRingersOn := true } }
             else
               { s with info := { s.info with cmdEnum := .CIS_CMD_RINGER_OFF
                                              bRingersOn := false } }
    SendCISPortCmd s cisPowered

/-- SendGetRingerStatusCmd (src/Modem.c:1281-1307). -/
def SendGetRingerStatusCmd (s : EngineState) (cisPowered : Bool) : Bool × EngineState :=
  if ¬ cisGateOpen s.atCmdState then
    (false, s)
  else
    let s := { s with info := { s.info with cmdEnum := .CIS_CMD_RINGER_STATUS } }
    let r := SendCISPortCmd s cisPowered
    (r.1, { r.2 with subState := .sendCisRingerStateCmd })

/-- RELAY_1 / RELAY_2 indices. -/
def RELAY_1 : Nat := 0

def RELAY_2 : Nat := 1

/-- SendSetRelayCmd (src/Modem.c:1327-1382); an invalid relay number also
returns FALSE without touching state. -/
def SendSetRelayCmd (s : EngineState) (byRelayNbr : Nat) (bRelayState : Bool)
    (cisPowered : Bool) : Bool × EngineState :=
  if ¬ cisGateOpen s.atCmdState then
    (false, s)
  else if byRelayNbr = RELAY_1 then
    let s := { s with info := { s.info with
                 cmdEnum := if bRelayState then .CIS_CMD_RELAY_1_ON else .CIS_CMD_RELAY_1_OFF
                 bRelayOn1 := if bRelayState then 1 else 0 } }
    SendCISPortCmd s cisPowered
  else if byRelayNbr = RELAY_2 then
    let s := { s with info := { s.info with
                 cmdEnum := if bRelayState then .CIS_CMD_RELAY_2_ON else .CIS_CMD_RELAY_2_OFF
                 bRelayOn2 := if bRelayState then 1 else 0 } }
    SendCISPortCmd s cisPowered
  else
    (false, s)

/-- SendGetRelayStatusCmd (src/Modem.c:1401-1449). -/
def SendGetRelayStatusCmd (s : EngineState) (byRelayNbr : Nat) (cisPowered : Bool) :
    Bool × EngineState :=
  if ¬ cisGateOpen s.atCmdState then
    (false, s)
  else if byRelayNbr = RELAY_1 then
    let s := { s with info := { s.info with cmdEnum := .CIS_CMD_RELAY_1_STATUS
                                            byCurrRelayNbr := RELAY_1 } }
    let r := SendCISPortCmd s cisPowered
    (r.1, { r.2 with subState := .sendCisRelayStateCmd })
  else if byRelayNbr = RELAY_2 then
    let s := { s with info := { s.info with cmdEnum := .CIS_CMD_RELAY_2_STATUS
                                            byCurrRelayNbr := RELAY_2 } }
    let r := SendCISPortCmd s cisPowered
    (r.1, { r.2 with subState := .sendCisRelayStateCmd })
  else
    (false, s)

/-- The dispatch operations of the protocol engine's public contract, with
their external inputs. -/
inductive DispatchCall
  | writeTextMsg
  | binaryFile (fileLen : Nat) (openOk readOk : Bool)
  | binaryBuffer (buf : List Nat) (size : Nat)
  | gatewayCheck
  | mailboxCheck
  | csq
  | readBinaryFile
  | clcc
  | callHangup
  | creg
  | downloadCIS (cisPowered : Bool)
  | programCIS (cisPowered : Bool)
  | cisReset (cisPowered : Bool)
  | setRinger (b : Bool) (cisPowered : Bool)
  | getRingerStatus (cisPowered : Bool)
  | setRelay (n : Nat) (b : Bool) (cisPowered : Bool)
  | getRelayStatus (n : Nat) (cisPowered : Bool)
deriving DecidableEq

/-- Whether a dispatch targets the aux (CIS) board. -/
def DispatchCall.isAux : DispatchCall → Bool
  | .downloadCIS _ | .programCIS _ | .cisReset _ | .setRinger _ _
  | .getRingerStatus _ | .setRelay _ _ _ | .getRelayStatus _ _ => true
  | _ => false

/-- Run one dispatch call against the engine state. -/
def dispatch (c : DispatchCall) (s : EngineState) : Bool × EngineState :=
  match c with
  | .writeTextMsg => SendWriteTextMsgCmd s
  | .binaryFile fileLen openOk readOk => SendBinaryFile s fileLen openOk readOk
  | .binaryBuffer buf size => SendBinaryBuffer s buf size
  | .gatewayCheck => CheckGateway s
  | .mailboxCheck => CheckMailbox s
  | .csq => SendCSQCmd s
  | .readBinaryFile => SendReadBinaryFileCmd s
  | .clcc => SendCLCCCmd s
  | .callHangup => SendCallHangupCmd s
  | .creg => SendCREGCmd s
  | .downloadCIS p => SendDownloadCISCmd s p
  | .programCIS p => SendProgramCISCmd s p
  | .cisReset p => SendCISResetCmd s p
  | .setRinger b p => SendSetRingerCmd s b p
  | .getRingerStatus p => SendGetRingerStatusCmd s p
  | .setRelay n b p => SendSetRelayCmd s n b p
  | .getRelayStatus n p => SendGetRelayStatusCmd s n p

/-- C1: every modem dispatch returns FALSE and leaves the engine untouched
unless the engine is IDLE; every aux-board dispatch additionally accepts
POWERED_DOWN; hence a command is only ever admitted into an idle (or, for the
aux subset, powered-down) engine and no two commands are in flight at once. -/
theorem dispatch_gate (c : DispatchCall) (s : EngineState) :
    (c.isAux = false → s.atCmdState ≠ .idle → dispatch c s = (false, s)) ∧
    (c.isAux = true → s.atCmdState ≠ .idle → s.atCmdState ≠ .poweredDown →
      dispatch c s = (false, s)) := by
  constructor
  · intro haux hne
    cases c <;> simp_all [dispatch, DispatchCall.isAux, SendWriteTextMsgCmd,
      SendBinaryFile, SendBinaryBuffer, CheckGateway, CheckMailbox, SendCSQCmd,
      SendReadBinaryFileCmd, SendCLCCCmd, SendCallHangupCmd, SendCREGCmd]
  · intro haux hni hnp
    have hgate : cisGateOpen s.atCmdState = false := by
      cases hst : s.atCmdState <;> simp_all [cisGateOpen]
    cases c <;> simp_all [dispatch, DispatchCall.isAux, SendDownloadCISCmd,
      SendProgramCISCmd, SendCISResetCmd, SendSetRingerCmd, SendGetRingerStatusCmd,
      SendSetRelayCmd, SendGetRelayStatusCmd]

/-- C1 witness: the gate theorem applied at concrete calls on a SENDING-state
engine. -/
theorem dispatch_gate_witness :
    dispatch .csq { engine0 with atCmdState := .sending } =
      (false, { engine0 with atCmdState := .sending }) ∧
    dispatch (.cisReset true) { engine0 with atCmdState := .sending } =
      (false, { engine0 with atCmdState := .sending }) :=
  ⟨(dispatch_gate .csq { engine0 with atCmdState := .sending }).1 (by decide)
      (by decide),
   (dispatch_gate (.cisReset true) { engine0 with atCmdState := .sending }).2
      (by decide) (by decide) (by decide)⟩

/-! ## C3: the MT binary read (GetRxBinaryDataBufferRsp, src/Modem.c:4077-4355)

The receive loop (src/Modem.c:4090-4106) runs `wRxDataCount` up to
`modemInfo.wMTLength + WORD_SIZE * 2` — the expected length from the PRIOR
SBDIX plus the 2-byte head length and the 2-byte checksum — and adds to the
16-bit running sum exactly the bytes with index in [WORD_SIZE,
wMTLength + WORD_SIZE).  The head length `wRxMsgLen` and the transported
checksum are read back out of the structured buffer as big-endian WORDs (the
target is a big-endian part; the buffer is a union over a WORD-led struct).
The file-writing tail (src/Modem.c:4149-4248) is filesystem work declared out
of scope by the spec; it is modelled as succeeding, so the returned response
is the value `modemResponse` computed by the checks. -/

def WORD_SIZE : Nat := 2

/-- MAX_RX_FILE_LEN: the MT message ceiling.  The macro lives in a header
outside src/; the spec fixes mt_length to 0..=1890, matching the Iridium MT
limit documented at src/Modem.c:3442. -/
def MAX_RX_FILE_LEN : Nat := 1890

/-- The decision chain after the read loop (src/Modem.c:4114-4146), as a
function of the prior-SBDIX length, the transported head length, the computed
sum and the transported checksum.  Returns (modemResponse, errorCodeRsp,
wRxMsgLen after the final clamp). -/
def rxDecision (wMTLength headLen calcSum rxChecksum : Nat) :
    ModemResponse × Option ErrorCode × Nat :=
  let step1 :=
    if headLen = 0 then
      (ModemResponse.mrFailed, some ErrorCode.MEC_RX_NO_MSG_WAITING, headLen)
    else if headLen > MAX_RX_FILE_LEN then
      (ModemResponse.mrSuccess, some ErrorCode.MEC_RX_BAD_FILELENGTH, wMTLength)
    else
      (ModemResponse.mrSuccess, (none : Option ErrorCode), headLen)
  let step2 :=
    if calcSum ≠ rxChecksum then
      (ModemResponse.mrFailed, some ErrorCode.MEC_RX_BAD_CHECKSUM, step1.2.2)
    else
      step1
  (step2.1, step2.2.1, if step2.2.2 ≠ wMTLength then wMTLength else step2.2.2)

/-- The outcome of one complete AT+SBDRB read. -/
structure RxResult where
  response : ModemResponse
  errorCodeRsp : Option ErrorCode
  wRxMsgLen : Nat
  bytesRead : Nat
  wCalculatedCheckSum : Nat
deriving DecidableEq

/-- GetRxBinaryDataBufferRsp (src/Modem.c:4077-4146 and the response value of
the remainder): `stream` is the byte sequence available at the port; `none`
models MR_WAITING (not enough bytes yet, src/Modem.c:4092-4095).
ClearRxBinaryDataVars has run at dispatch (src/Modem.c:1012), so the running
checksum starts at 0. -/
def GetRxBinaryDataBufferRsp (info : ModemInfo) (stream : List Nat) :
    Option RxResult :=
  let total := info.wMTLength + WORD_SIZE * 2
  if stream.length < total then
    none
  else
    let buf := stream.take total
    -- sum the bytes with index in [WORD_SIZE, wMTLength + WORD_SIZE) only
    let calcSum := ((buf.drop WORD_SIZE).take info.wMTLength).sum % 65536
    -- RxMsg.rxMsg.wRxMsgLen: the WORD at the head of the structured buffer
    let headLen := buf.getD 0 0 * 256 + buf.getD 1 0
    -- rxChecksum: the last two bytes read, byData[0] the high byte
    let rxChecksum := buf.getD (total - 2) 0 * 256 + buf.getD (total - 1) 0
    let d := rxDecision info.wMTLength headLen calcSum rxChecksum
    some { response := d.1, errorCodeRsp := d.2.1, wRxMsgLen := d.2.2
           bytesRead := total, wCalculatedCheckSum := calcSum }

/-- C3 counterexample: with mt_length = 2 from the prior SBDIX and a response
whose 2-byte head says L = 1, the loop still reads mt_length + 4 = 6 bytes,
not L + 4 = 5 as the claim states. -/
theorem GetRxBinaryDataBufferRsp_reads_mtLength_counterexample :
    (GetRxBinaryDataBufferRsp { modemInfo0 with wMTLength := 2 }
        [0, 1, 7, 9, 0, 16]).map RxResult.bytesRead = some 6 ∧
    (0 : Nat) * 256 + 1 = 1 ∧ (6 : Nat) ≠ 1 + 4 := by
  decide

/-- Helper for C3: the post-read decision chain, characterised. -/
theorem rxDecision_spec (L h c x : Nat) :
    (rxDecision L h c x).2.2 = L ∧
    (c ≠ x → (rxDecision L h c x).1 = .mrFailed ∧
      (rxDecision L h c x).2.1 = some .MEC_RX_BAD_CHECKSUM) ∧
    (c = x → h = 0 → (rxDecision L h c x).1 = .mrFailed ∧
      (rxDecision L h c x).2.1 = some .MEC_RX_NO_MSG_WAITING) ∧
    (c = x → 0 < h → h ≤ MAX_RX_FILE_LEN → (rxDecision L h c x).1 = .mrSuccess ∧
      (rxDecision L h c x).2.1 = none) := by
  unfold rxDecision
  split_ifs <;> simp_all

/-- C3 (amended): for a stream holding at least mt_length + 4 bytes (mt_length
from the prior SBDIX), the read loop consumes exactly mt_length + 4 bytes and
sums the mt_length payload bytes (16-bit); if the computed sum differs from
the transported checksum the outcome is FAILED with MEC_RX_BAD_CHECKSUM
(overriding any earlier code); if the checksum matches and the transported
head length L is 0, the outcome is FAILED with MEC_RX_NO_MSG_WAITING; if the
checksum matches and L is in 1..=MAX_RX_FILE_LEN the outcome is SUCCESS; and
the recorded length always ends up equal to mt_length. -/
theorem GetRxBinaryDataBufferRsp_spec (info : ModemInfo) (stream : List Nat)
    (h : info.wMTLength + 4 ≤ stream.length) :
    ∃ r, GetRxBinaryDataBufferRsp info stream = some r ∧
      r.bytesRead = info.wMTLength + 4 ∧
      r.wCalculatedCheckSum =
        (((stream.take (info.wMTLength + 4)).drop 2).take info.wMTLength).sum % 65536 ∧
      r.wRxMsgLen = info.wMTLength ∧
      (let buf := stream.take (info.wMTLength + 4)
       let headLen := buf.getD 0 0 * 256 + buf.getD 1 0
       let rxChecksum := buf.getD (info.wMTLength + 2) 0 * 256 +
         buf.getD (info.wMTLength + 3) 0
       (r.wCalculatedCheckSum ≠ rxChecksum →
         r.response = .mrFailed ∧ r.errorCodeRsp = some .MEC_RX_BAD_CHECKSUM) ∧
       (r.wCalculatedCheckSum = rxChecksum → headLen = 0 →
         r.response = .mrFailed ∧ r.errorCodeRsp = some .MEC_RX_NO_MSG_WAITING) ∧
       (r.wCalculatedCheckSum = rxChecksum → 0 < headLen → headLen ≤ MAX_RX_FILE_LEN →
         r.response = .mrSuccess ∧ r.errorCodeRsp = none)) := by
  have hnlt : ¬ stream.length < info.wMTLength + WORD_SIZE * 2 := by
    simp only [WORD_SIZE]
    omega
  have htot : info.wMTLength + WORD_SIZE * 2 = info.wMTLength + 4 := by
    simp only [WORD_SIZE]
  have hm2 : info.wMTLength + 4 - 2 = info.wMTLength + 2 := by omega
  have hm1 : info.wMTLength + 4 - 1 = info.wMTLength + 3 := by omega
  unfold GetRxBinaryDataBufferRsp
  rw [if_neg hnlt]
  rw [htot, hm2, hm1]
  set buf := stream.take (info.wMTLength + 4) with hbuf
  set calcSum := ((buf.drop WORD_SIZE).take info.wMTLength).sum % 65536 with hcalc
  set headLen := buf.getD 0 0 * 256 + buf.getD 1 0 with hhead
  set rxChecksum := buf.getD (info.wMTLength + 2) 0 * 256 +
    buf.getD (info.wMTLength + 3) 0 with hrx
  obtain ⟨d1, d2, d3, d4⟩ := rxDecision_spec info.wMTLength headLen calcSum rxChecksum
  refine ⟨_, rfl, rfl, by simp [hcalc, WORD_SIZE], d1, d2, d3, d4⟩

/-- C3 witness: a valid 2-byte message ([7, 9], checksum 16) read to SUCCESS. -/
theorem GetRxBinaryDataBufferRsp_spec_witness :
    ∃ r, GetRxBinaryDataBufferRsp { modemInfo0 with wMTLength := 2 }
        [0, 2, 7, 9, 0, 16] = some r ∧ r.bytesRead = 2 + 4 ∧
      r.response = .mrSuccess ∧ r.errorCodeRsp = none ∧ r.wRxMsgLen = 2 := by
  obtain ⟨r, hr, hb, hsum, hlen, hresp⟩ :=
    GetRxBinaryDataBufferRsp_spec { modemInfo0 with wMTLength := 2 }
      [0, 2, 7, 9, 0, 16] (by decide)
  refine ⟨r, hr, hb, ?_, ?_, hlen⟩ <;>
    have h3 := hresp.2.2 (by rw [hsum]; decide) (by decide) (by decide)
  · exact h3.1
  · exact h3.2

/-! ## C7: the SBDSX response parser (GetSBDStatusRsp, src/Modem.c:3699-3764)

The tokenisation at src/Modem.c:3729-3736 writes the second and fourth fields
straight into `modemInfo.szMOMSN` and `modemInfo.szMTMSN`, although the
comment right below (src/Modem.c:3738-3739) says those fields must NOT be
populated from an +SBDSX line. -/

/-- The fields of a `+SBDSX:` line, in source order; the numeric fields carry
the StringToInt results. -/
structure SbdsxFields where
  moFlag : Nat
  moMsn : String
  mtFlag : Nat
  mtMsn : String
  raFlag : Nat
  queued : Nat
deriving DecidableEq

/-- GetSBDStatusRsp (src/Modem.c:3699-3764) after the header has been found
and the six fields tokenised.  Returns the updated MODEM_INFO_STRUCT and the
MODEM_RESPONSES value. -/
def GetSBDStatusRsp (info : ModemInfo) (f : SbdsxFields) :
    ModemInfo × ModemResponse :=
  -- StringTok writes the MSN fields into modemInfo directly (src/Modem.c:3732,3734)
  let info := { info with szMOMSN := f.moMsn, szMTMSN := f.mtMsn }
  let info := { info with byRAFlag := f.raFlag % 256 }
  let byQueuedMsgs := f.queued % 256
  if info.byRAFlag = 1 ∨ info.byMTQueueNbr ≠ 0 then
    (info, .mrSuccess)
  else if byQueuedMsgs ≠ 0 then
    ({ info with byMTQueueNbr := byQueuedMsgs }, .mrSuccess)
  else
    (info, .mrFailed)

/-- C7: the code contradicts both the spec and its own comment
(src/Modem.c:3738-3739): a well-formed +SBDSX line overwrites
modemInfo.szMOMSN and szMTMSN, so fields other than ra_flag and mt_queue_nbr
do change.  At this input the stored MOMSN "00123" becomes " 11111". -/
theorem GetSBDStatusRsp_overwrites_msn :
    (GetSBDStatusRsp modemInfo0
        { moFlag := 0, moMsn := " 11111", mtFlag := 0, mtMsn := " 22222"
          raFlag := 0, queued := 0 }).1.szMOMSN = " 11111" ∧
    (GetSBDStatusRsp modemInfo0
        { moFlag := 0, moMsn := " 11111", mtFlag := 0, mtMsn := " 22222"
          raFlag := 0, queued := 0 }).1.szMTMSN = " 22222" ∧
    modemInfo0.szMOMSN = "00123" ∧ modemInfo0.szMTMSN = "00000" ∧
    (GetSBDStatusRsp modemInfo0
        { moFlag := 0, moMsn := " 11111", mtFlag := 0, mtMsn := " 22222"
          raFlag := 0, queued := 0 }).2 = .mrFailed := by
  refine ⟨rfl, rfl, rfl, rfl, rfl⟩

/-- C7 auxiliary: the success/failure verdict and the frame on the remaining
fields do match the claim — SUCCESS is returned iff ra_flag = 1 or the
(updated) mt_queue_nbr is non-zero, mt_queue_nbr changes only when it was
previously zero, and every field other than szMOMSN, szMTMSN, byRAFlag and
byMTQueueNbr is untouched. -/
theorem GetSBDStatusRsp_verdict (info : ModemInfo) (f : SbdsxFields) :
    ((GetSBDStatusRsp info f).2 = .mrSuccess ↔
      f.raFlag % 256 = 1 ∨ (GetSBDStatusRsp info f).1.byMTQueueNbr ≠ 0) ∧
    (info.byMTQueueNbr ≠ 0 →
      (GetSBDStatusRsp info f).1.byMTQueueNbr = info.byMTQueueNbr) ∧
    (GetSBDStatusRsp info f).1.byMOStatus = info.byMOStatus ∧
    (GetSBDStatusRsp info f).1.byMTStatus = info.byMTStatus ∧
    (GetSBDStatusRsp info f).1.wMTLength = info.wMTLength ∧
    (GetSBDStatusRsp info f).1.iSignalStrength = info.iSignalStrength ∧
    (GetSBDStatusRsp info f).1.byCallStatus = info.byCallStatus := by
  unfold GetSBDStatusRsp
  rcases Decidable.em (f.raFlag % 256 = 1 ∨ info.byMTQueueNbr ≠ 0) with h1 | h1
  · simp only [h1, if_pos, reduceIte]
    rcases h1 with h1 | h1 <;> simp_all
  · push_neg at h1
    obtain ⟨hra, hq⟩ := h1
    rcases Decidable.em (f.queued % 256 = 0) with h2 | h2 <;>
      simp_all

/-! ## C9: the aux command queue (capacity 10, duplicate suppression)

MODEM_COMMANDS is the API-layer command enumeration (declared in a header
outside src/; the constructors below are the values used by
src/ModemAPI.c).  The queue storage `modemQBuff` has MDM_Q_LEN = 10 slots
(src/ModemAPI.c:80,148) and starts zeroed, i.e. all NO_CMD. -/

/-- MODEM_COMMANDS: the API-layer command identifiers used by
src/ModemAPI.c (enumeration order is immaterial to the queue claims). -/
inductive ModemCommand
  | NO_CMD
  | RINGER_ON
  | RINGER_OFF
  | RELAY1_ON
  | RELAY1_OFF
  | RELAY2_ON
  | RELAY2_OFF
  | RINGER_STATUS
  | RELAY1_STATUS
  | RELAY2_STATUS
  | RESET_CIS
  | CONFIGURE_CIS
  | UPLOAD_CIS_CONFIG
  | CALL_HANGUP
  | TXING_FILE
  | TXING_BUFFER
  | RXING_FILE
  | MAILBOX_CHECK
  | GATEWAY_CHECK
  | GETTING_CSQ
  | CALL_STATUS
deriving DecidableEq

/-- MDM_Q_LEN (src/ModemAPI.c:80). -/
def MDM_Q_LEN : Nat := 10

/-- COMMQUEUE: ring-buffer bookkeeping over modemQBuff
(src/ModemAPI.c:148-152: QueuedCISCmd = ( 0, 0, modemQBuff, MDM_Q_LEN )). -/
structure CommQueue where
  wWriteIndex : Nat
  wReadIndex : Nat
  buff : List ModemCommand
deriving DecidableEq

/-- Modelled from the spec: AddDataToQueue is the shared ring-buffer insert
primitive whose definition lives outside src/ (only its callers are in the
repository); the spec describes the aux queue as a bounded FIFO, so the
primitive writes at the write index and advances it modulo the queue length. -/
def AddDataToQueue (q : CommQueue) (d : ModemCommand) : CommQueue :=
  { q with buff := q.buff.set q.wWriteIndex d
           wWriteIndex := (q.wWriteIndex + 1) % MDM_Q_LEN }

/-- Modelled from the spec: GetDataFromQueue is the matching ring-buffer
remove primitive (definition outside src/); it reads the slot at the read
index and advances it modulo the queue length. -/
def GetDataFromQueue (q : CommQueue) : ModemCommand × CommQueue :=
  (q.buff.getD q.wReadIndex .NO_CMD,
   { q with wReadIndex := (q.wReadIndex + 1) % MDM_Q_LEN })

/-- AddNewDataToQueue (src/ModemAPI.c:2634-2651): scan the whole buffer; a
command already present anywhere is not added again; otherwise enqueue it and
set its per-command response to MR_WAITING. -/
def AddNewDataToQueue (q : CommQueue) (rsp : ModemCommand → ModemResponse)
    (cmd : ModemCommand) : CommQueue × (ModemCommand → ModemResponse) :=
  if cmd ∈ q.buff then
    (q, rsp)
  else
    (AddDataToQueue q cmd, fun c => if c = cmd then .mrWaiting else rsp c)

/-- The queue-manipulation part of HandleQueuedCommands
(src/ModemAPI.c:1879-1896): nothing when empty; otherwise remember the read
slot, pop, and clear that slot back to NO_CMD so the command can be posted
again in the future. -/
def HandleQueuedCommandsDrain (q : CommQueue) : Option (ModemCommand × CommQueue) :=
  if q.wWriteIndex = q.wReadIndex then
    none
  else
    let wBackupReadIndex := q.wReadIndex
    let r := GetDataFromQueue q
    some (r.1, { r.2 with buff := r.2.buff.set wBackupReadIndex .NO_CMD })

/-- The duplicate-freedom invariant on the queue storage: any command
occurring in two distinct slots is NO_CMD (so the queue never holds two equal
real commands). -/
def BuffNoDup (l : List ModemCommand) : Prop :=
  ∀ i j, i < l.length → j < l.length → i ≠ j →
    l.getD i .NO_CMD = l.getD j .NO_CMD → l.getD i .NO_CMD = .NO_CMD

/-- Helper for C9: getD after set at a different index. -/
theorem getD_set_ne (l : List ModemCommand) (w i : Nat) (a : ModemCommand)
    (hne : i ≠ w) : (l.set w a).getD i .NO_CMD = l.getD i .NO_CMD := by
  rcases Decidable.em (i < l.length) with h | h
  · rw [List.getD_eq_getElem (l.set w a) _ (show i < (l.set w a).length by simpa using h),
      List.getD_eq_getElem l _ h]
    exact List.getElem_set_ne (by omega) (by simpa using h)
  · rw [List.getD_eq_default (l.set w a) _ (by simpa using h),
      List.getD_eq_default l _ (by omega)]

/-- Helper for C9: getD after set at the written index. -/
theorem getD_set_self (l : List ModemCommand) (w : Nat) (a : ModemCommand)
    (h : w < l.length) : (l.set w a).getD w .NO_CMD = a := by
  rw [List.getD_eq_getElem (l.set w a) _ (show w < (l.set w a).length by simpa using h)]
  exact List.getElem_set_self (h := by simpa using h)

/-- Helper for C9: writing a command that is nowhere in the buffer preserves
duplicate freedom. -/
theorem buffNoDup_set_fresh (l : List ModemCommand) (w : Nat) (cmd : ModemCommand)
    (hmem : cmd ∉ l) (h : BuffNoDup l) : BuffNoDup (l.set w cmd) := by
  intro i j hi hj hij heq
  simp only [List.length_set] at hi hj
  rcases Decidable.em (i = w) with hiw | hiw <;>
    rcases Decidable.em (j = w) with hjw | hjw
  · omega
  · rw [hiw, getD_set_self l w cmd (by omega)] at heq ⊢
    rw [getD_set_ne l w j cmd hjw] at heq
    have hjmem : cmd ∈ l := by
      rw [heq, List.getD_eq_getElem l _ hj]
      exact List.getElem_mem hj
    exact absurd hjmem hmem
  · rw [hjw, getD_set_self l w cmd (by omega)] at heq
    rw [getD_set_ne l w i cmd hiw] at heq ⊢
    have himem : cmd ∈ l := by
      rw [← heq, List.getD_eq_getElem l _ hi]
      exact List.getElem_mem hi
    exact absurd himem hmem
  · rw [getD_set_ne l w i cmd hiw] at heq ⊢
    rw [getD_set_ne l w j cmd hjw] at heq
    exact h i j hi hj hij heq

/-- Helper for C9: clearing any slot to NO_CMD preserves duplicate freedom. -/
theorem buffNoDup_set_nocmd (l : List ModemCommand) (r : Nat)
    (h : BuffNoDup l) : BuffNoDup (l.set r .NO_CMD) := by
  intro i j hi hj hij heq
  simp only [List.length_set] at hi hj
  rcases Decidable.em (i = r) with hir | hir
  · rw [hir, getD_set_self l r .NO_CMD (by omega)]
  · rcases Decidable.em (j = r) with hjr | hjr
    · rw [hjr, getD_set_self l r .NO_CMD (by omega)] at heq
      rw [getD_set_ne l r i .NO_CMD hir] at heq ⊢
      exact heq
    · rw [getD_set_ne l r i .NO_CMD hir] at heq ⊢
      rw [getD_set_ne l r j .NO_CMD hjr] at heq
      exact h i j hi hj hij heq

/-- C9: duplicate admission is a no-op; fresh admission enqueues the command
and sets its response to WAITING; admission and drain both preserve the
no-duplicates invariant; and the drained slot is cleared to NO_CMD. -/
theorem aux_queue_spec (q : CommQueue) (rsp : ModemCommand → ModemResponse)
    (cmd : ModemCommand) (hinv : BuffNoDup q.buff) :
    (cmd ∈ q.buff → AddNewDataToQueue q rsp cmd = (q, rsp)) ∧
    (cmd ∉ q.buff → q.wWriteIndex < q.buff.length →
      cmd ∈ (AddNewDataToQueue q rsp cmd).1.buff ∧
      (AddNewDataToQueue q rsp cmd).2 cmd = .mrWaiting) ∧
    BuffNoDup (AddNewDataToQueue q rsp cmd).1.buff ∧
    (∀ c q2, HandleQueuedCommandsDrain q = some (c, q2) →
      BuffNoDup q2.buff ∧ q2.buff.getD q.wReadIndex .NO_CMD = .NO_CMD) := by
  refine ⟨?_, ?_, ?_, ?_⟩
  · intro hmem
    simp [AddNewDataToQueue, hmem]
  · intro hmem hlt
    simp only [AddNewDataToQueue, hmem, if_neg, reduceIte, AddDataToQueue]
    exact ⟨List.mem_set q.buff q.wWriteIndex hlt cmd, by simp⟩
  · rcases Decidable.em (cmd ∈ q.buff) with hmem | hmem
    · simpa [AddNewDataToQueue, hmem] using hinv
    · simp only [AddNewDataToQueue, hmem, if_neg, reduceIte, AddDataToQueue]
      exact buffNoDup_set_fresh q.buff q.wWriteIndex cmd hmem hinv
  · intro c q2 hdrain
    simp only [HandleQueuedCommandsDrain] at hdrain
    rcases Decidable.em (q.wWriteIndex = q.wReadIndex) with hempty | hempty
    · simp [hempty] at hdrain
    · simp only [hempty, if_neg, reduceIte, GetDataFromQueue, Option.some.injEq,
        Prod.mk.injEq] at hdrain
      obtain ⟨-, hq2⟩ := hdrain
      subst hq2
      refine ⟨buffNoDup_set_nocmd q.buff q.wReadIndex hinv, ?_⟩
      rcases Decidable.em (q.wReadIndex < q.buff.length) with hr | hr
      · rw [List.getD_eq_getElem _ _ (by simpa using hr),
          List.getElem_set_self (h := by simpa using hr)]
      · rw [List.getD_eq_default _ _ (by simpa using hr)]

/-- C9 witness: the queue theorem applied at a concrete queue holding
RINGER_STATUS, admitting RESET_CIS. -/
theorem aux_queue_spec_witness :
    (AddNewDataToQueue
        { wWriteIndex := 1, wReadIndex := 0
          buff := [ModemCommand.RINGER_STATUS, .NO_CMD, .NO_CMD, .NO_CMD, .NO_CMD,
                   .NO_CMD, .NO_CMD, .NO_CMD, .NO_CMD, .NO_CMD] }
        (fun _ => .mrNoResp) .RESET_CIS).2 .RESET_CIS = .mrWaiting := by
  have h := aux_queue_spec
    { wWriteIndex := 1, wReadIndex := 0
      buff := [ModemCommand.RINGER_STATUS, .NO_CMD, .NO_CMD, .NO_CMD, .NO_CMD,
               .NO_CMD, .NO_CMD, .NO_CMD, .NO_CMD, .NO_CMD] }
    (fun _ => .mrNoResp) .RESET_CIS
    (by
      intro i j hi hj hij heq
      simp only [List.length_cons, List.length_nil] at hi hj
      interval_cases i <;> interval_cases j <;> simp_all)
  exact (h.2.1 (by decide) (by decide)).2

/-! ## C6: every exit from a PROGRAMMING sub-state restores DATA_PORT
(UpdateModemState, src/Modem.c:1615-2672)

One tick of UpdateModemState, translated for a tick that starts in
AT_CMD_PGMING.  The externals polled during the tick are an event record:
modem power, voice-call line, the two timer expiries, the CIS power bit, the
sub-state's response-parser verdict (GetCISPortRsp / GetRingerStatusRsp /
GetRelayStatusRsp / GetCISVersionStatusRsp never touch the port or the
state), the CaptureCISOutput completion bit, whether GetCISConfigLine has
another line, and up to two raw bytes for CIS_PGMING_RSP.  The switch arms
for SENDING/RCVING/INITTING/IDLE are unreachable within a tick that starts in
PGMING (the prelude can only move PGMING to POWERED_DOWN or TIMED_OUT) and
are the subject of the other fragments in this file. -/

structure PgmingEvent where
  modemRunning : Bool
  voiceCall : Bool
  respExpired : Bool
  cisPowered : Bool
  cisExpired : Bool
  rsp : ModemResponse
  captureDone : Bool
  lineAvailable : Bool
  rxByte : Option Nat
  rxByte2 : Option Nat
deriving DecidableEq

/-- ClearModemInfo (src/Modem.c:5024-5038): zero the struct, reload the error
sentinels, and keep the ringer/relay caches. -/
def ClearModemInfo (info : ModemInfo) : ModemInfo :=
  { byMOStatus := 0, byMTStatus := 0, szMOMSN := "", szMTMSN := ""
    wMTLength := 0, byMTQueueNbr := 0, byRAFlag := 0, dwTxMsgLen := 0
    iSignalStrength := -1, cmdEnum := .CIS_CMD_RELAY_1_OFF, byCallStatus := 3
    bRingersOn := info.bRingersOn, bRelayOn1 := info.bRelayOn1
    bRelayOn2 := info.bRelayOn2, byCurrRelayNbr := 0 }

/-- SendCISLoadConfigLineCmd (src/Modem.c:3171-3200): FALSE when
GetCISConfigLine has no more lines; otherwise clear buffers on
PROGRAMMING_PORT, push the line, re-arm the CIS timer, and move to
AT_CMD_PGMING / CIS_PGMING_RSP. -/
def SendCISLoadConfigLineCmd (s : EngineState) (lineAvailable : Bool) :
    Bool × EngineState :=
  if ¬ lineAvailable then
    (false, s)
  else
    let s := ClearBuffers s .programmingPort
    (true, { s with cisTimerRunning := true, atCmdState := .pgming
                    subState := .cisPgmingRsp })

/-- RecoverFromBadCISCmd (src/Modem.c:3215-3223): push the cancel command,
re-arm the CIS timer, reset the configuration index. -/
def RecoverFromBadCISCmd (s : EngineState) : EngineState :=
  { s with cisTimerRunning := true }

/-- The AT_CMD_PGMING arm of the UpdateModemState switch
(src/Modem.c:2382-2661), sub-state by sub-state. -/
def pgmingSwitch (s : EngineState) (ev : PgmingEvent) : EngineState :=
  match s.subState with
  | .sendCisPortCmd =>
      -- src/Modem.c:2386-2414
      match ev.rsp with
      | .mrSuccess => { s with cisPort := .dataPort, atCmdState := .success
                               cisTimerRunning := false }
      | .mrFailed => { s with cisPort := .dataPort, atCmdState := .failed
                              cisTimerRunning := false }
      | _ => s
  | .sendCisRingerStateCmd =>
      -- src/Modem.c:2417-2445
      match ev.rsp with
      | .mrSuccess => { s with cisPort := .dataPort, atCmdState := .success
                               cisTimerRunning := false }
      | .mrFailed => { s with cisPort := .dataPort, atCmdState := .failed
                              cisTimerRunning := false }
      | _ => s
  | .sendCisRelayStateCmd =>
      -- src/Modem.c:2447-2475
      match ev.rsp with
      | .mrSuccess => { s with cisPort := .dataPort, atCmdState := .success
                               cisTimerRunning := false }
      | .mrFailed => { s with cisPort := .dataPort, atCmdState := .failed
                              cisTimerRunning := false }
      | _ => s
  | .sendCisDownloadConfigCmd =>
      -- src/Modem.c:2477-2505
      match ev.rsp with
      | .mrSuccess => { s with cisTimerRunning := true
                               subState := .cisDownloadConfig }
      | .mrFailed => { s with cisPort := .dataPort, atCmdState := .failed
                              cisTimerRunning := false }
      | _ => s
  | .cisDownloadConfig =>
      -- src/Modem.c:2507-2517
      if ev.captureDone then
        { s with cisPort := .dataPort, atCmdState := .success
                 cisTimerRunning := false }
      else s
  | .sendCisVersionQueryCmd =>
      -- src/Modem.c:2519-2550
      match ev.rsp with
      | .mrSuccess =>
          let s := { s with info := { s.info with cmdEnum := .CIS_CMD_LOAD_FLASH } }
          let r := SendCISPortCmd s ev.cisPowered
          { r.2 with subState := .startCisPgmingCmd }
      | .mrFailed => { s with cisPort := .dataPort, atCmdState := .failed
                              cisTimerRunning := false }
      | _ => s
  | .startCisPgmingCmd =>
      -- src/Modem.c:2552-2579
      match ev.rsp with
      | .mrSuccess => { s with subState := .cisPgmingCmd }
      | .mrFailed => { s with cisPort := .dataPort, atCmdState := .failed
                              cisTimerRunning := false }
      | _ => s
  | .cisPgmingCmd =>
      -- src/Modem.c:2581-2594
      let r := SendCISLoadConfigLineCmd s ev.lineAvailable
      if r.1 = false then
        { r.2 with cisPort := .dataPort, atCmdState := .success
                   cisTimerRunning := false }
      else r.2
  | .cisPgmingRsp =>
      -- src/Modem.c:2596-2657; status bytes are ASCII N n F M O E e H a C
      match ev.rxByte with
      | none => s
      | some b =>
          if b = 78 ∨ b = 110 ∨ b = 70 then
            -- recoverable: cancel, reload flash, restart
            let s := RecoverFromBadCISCmd s
            let s := { s with info := { s.info with cmdEnum := .CIS_CMD_LOAD_FLASH } }
            let r := SendCISPortCmd s ev.cisPowered
            { r.2 with subState := .startCisPgmingCmd }
          else if b = 77 ∨ b = 79 ∨ b = 69 ∨ b = 101 ∨ b = 72 then
            { s with cisPort := .dataPort, atCmdState := .failed
                     cisTimerRunning := false }
          else if b = 97 then
            match ev.rxByte2 with
            | some b2 =>
                if b2 = 67 then
                  { s with cisPort := .dataPort, atCmdState := .success
                           cisTimerRunning := false }
                else { s with subState := .cisPgmingCmd }
            | none => { s with subState := .cisPgmingCmd }
          else s
  | _ => s

/-- Tick prelude, step 1: modem power loss (src/Modem.c:1625-1646), a no-op
while AT_CMD_PGMING. -/
def tickModemPower (s : EngineState) (ev : PgmingEvent) : EngineState :=
  if ¬ ev.modemRunning ∧ s.atCmdState ≠ .pgming then
    { ClearBuffers s .dataPort with
      info := ClearModemInfo s.info, respTimerRunning := false
      atCmdState := .poweredDown, subState := .substateNone
      errorCodeRsp := .MEC_NONE }
  else s

/-- Tick prelude, step 2: modem response timeout (src/Modem.c:1651-1686). -/
def tickRespTimer (s : EngineState) (ev : PgmingEvent) : EngineState :=
  if s.respTimerRunning ∧ ev.respExpired then respTimeoutStep s else s

/-- Tick prelude, step 3: CIS power loss (src/Modem.c:1690-1710), only while
AT_CMD_PGMING. -/
def tickCISPower (s : EngineState) (ev : PgmingEvent) : EngineState :=
  if ¬ ev.cisPowered ∧ s.atCmdState = .pgming then
    { ClearBuffers s .dataPort with
      info := ClearModemInfo s.info, cisTimerRunning := false
      atCmdState := .poweredDown, subState := .substateNone
      errorCodeRsp := .MEC_NONE }
  else s

/-- Tick prelude, step 4: CIS response timeout (src/Modem.c:1712-1723). -/
def tickCISTimer (s : EngineState) (ev : PgmingEvent) : EngineState :=
  if s.cisTimerRunning ∧ ev.cisExpired then
    { s with errorCodeRsp := .MEC_RSP_TIMED_OUT, atCmdState := .timedOut
             cisPort := .dataPort, cisTimerRunning := false }
  else s

/-- The state switch (src/Modem.c:1727-2670) over the states reachable within
a tick that starts in AT_CMD_PGMING; TIMED_OUT / FAILED / SUCCESS wait for
the upper layer (src/Modem.c:2663-2666). -/
def tickSwitch (s : EngineState) (ev : PgmingEvent) : EngineState :=
  match s.atCmdState with
  | .pgming => pgmingSwitch s ev
  | .poweredDown =>
      -- src/Modem.c:1729-1760
      if ev.modemRunning then
        if ev.voiceCall then s
        else { SendCommand s with atCmdState := .initting, subState := .sendImeiCmd }
      else s
  | _ => s

/-- One tick of UpdateModemState (src/Modem.c:1615-2672) for a tick that can
start in AT_CMD_PGMING. -/
def UpdateModemStatePgmingTick (s : EngineState) (ev : PgmingEvent) : EngineState :=
  tickSwitch (tickCISTimer (tickCISPower (tickRespTimer (tickModemPower s ev) ev) ev) ev) ev

/-- Helper for C6: the PGMING switch arm either stays in PGMING or has
restored DATA_PORT. -/
theorem pgmingSwitch_exit_dataPort (s : EngineState) (ev : PgmingEvent)
    (hpg : s.atCmdState = .pgming)
    (hexit : (pgmingSwitch s ev).atCmdState ≠ .pgming) :
    (pgmingSwitch s ev).cisPort = .dataPort := by
  obtain ⟨a, sub, e, i, p, rt, ct, w, bb⟩ := s
  simp only at hpg
  subst hpg
  cases sub <;> simp only [pgmingSwitch] at hexit ⊢
  case sendCisPortCmd =>
    cases hr : ev.rsp <;> simp_all
  case sendCisRingerStateCmd =>
    cases hr : ev.rsp <;> simp_all
  case sendCisRelayStateCmd =>
    cases hr : ev.rsp <;> simp_all
  case sendCisDownloadConfigCmd =>
    cases hr : ev.rsp <;> simp_all
  case cisDownloadConfig =>
    cases hc : ev.captureDone <;> simp_all
  case sendCisVersionQueryCmd =>
    cases hr : ev.rsp <;> cases hb : ev.cisPowered <;>
      simp_all [SendCISPortCmd, ClearBuffers]
  case startCisPgmingCmd =>
    cases hr : ev.rsp <;> simp_all
  case cisPgmingCmd =>
    cases hl : ev.lineAvailable <;>
      simp_all [SendCISLoadConfigLineCmd, ClearBuffers]
  case cisPgmingRsp =>
    rcases hx : ev.rxByte with _ | b
    · simp_all
    · simp only [hx] at hexit ⊢
      split_ifs at hexit ⊢ with h1 h2 h3
      · -- recoverable status byte: cancel and restart, still PGMING
        cases hb : ev.cisPowered <;>
          simp_all [SendCISPortCmd, ClearBuffers, RecoverFromBadCISCmd]
      · -- terminal status byte: FAILED with DATA_PORT
        simp_all
      · -- block passed: read the second byte
        rcases hx2 : ev.rxByte2 with _ | b2
        · simp_all
        · simp only [hx2] at hexit ⊢
          split_ifs at hexit ⊢ <;> simp_all
      · -- any other byte: keep waiting
        simp_all
  all_goals simp_all

/-- Helper for C6: the response-timeout step either does nothing or leaves
TIMED_OUT with DATA_PORT. -/
theorem tickRespTimer_cases (s : EngineState) (ev : PgmingEvent) :
    tickRespTimer s ev = s ∨
      ((tickRespTimer s ev).atCmdState = .timedOut ∧
       (tickRespTimer s ev).cisPort = .dataPort) := by
  unfold tickRespTimer
  split_ifs with h
  · exact Or.inr ⟨(respTimeoutStep_basic s).2, (respTimeoutStep_basic s).1⟩
  · exact Or.inl rfl

/-- Helper for C6: the CIS power-loss step either does nothing or leaves
POWERED_DOWN with DATA_PORT (via ClearBuffers). -/
theorem tickCISPower_cases (s : EngineState) (ev : PgmingEvent) :
    tickCISPower s ev = s ∨
      ((tickCISPower s ev).atCmdState = .poweredDown ∧
       (tickCISPower s ev).cisPort = .dataPort) := by
  unfold tickCISPower
  split_ifs with h
  · exact Or.inr ⟨rfl, rfl⟩
  · exact Or.inl rfl

/-- Helper for C6: the CIS timeout step either does nothing or leaves
TIMED_OUT with DATA_PORT. -/
theorem tickCISTimer_cases (s : EngineState) (ev : PgmingEvent) :
    tickCISTimer s ev = s ∨
      ((tickCISTimer s ev).atCmdState = .timedOut ∧
       (tickCISTimer s ev).cisPort = .dataPort) := by
  unfold tickCISTimer
  split_ifs with h
  · exact Or.inr ⟨rfl, rfl⟩
  · exact Or.inl rfl

/-- Helper for C6: the switch is the identity outside PGMING and
POWERED_DOWN. -/
theorem tickSwitch_other (s : EngineState) (ev : PgmingEvent)
    (h1 : s.atCmdState ≠ .pgming) (h2 : s.atCmdState ≠ .poweredDown) :
    tickSwitch s ev = s := by
  unfold tickSwitch
  split <;> simp_all

/-- Helper for C6: the POWERED_DOWN switch arm keeps DATA_PORT routing. -/
theorem tickSwitch_poweredDown (s : EngineState) (ev : PgmingEvent)
    (h : s.atCmdState = .poweredDown) (hp : s.cisPort = .dataPort) :
    (tickSwitch s ev).cisPort = .dataPort := by
  unfold tickSwitch
  rw [h]
  cases ev.modemRunning <;> cases ev.voiceCall <;>
    simp_all [SendCommand, ClearBuffers]

/-- C6: for any tick that starts in a PROGRAMMING state, if the tick leaves
the PGMING state (success, failure, timeout, or a power-loss exit), the port
routing has been restored to DATA_PORT. -/
theorem pgming_exit_restores_dataPort (s : EngineState) (ev : PgmingEvent)
    (hpg : s.atCmdState = .pgming)
    (hexit : (UpdateModemStatePgmingTick s ev).atCmdState ≠ .pgming) :
    (UpdateModemStatePgmingTick s ev).cisPort = .dataPort := by
  unfold UpdateModemStatePgmingTick at hexit ⊢
  have hA : tickModemPower s ev = s := by
    unfold tickModemPower
    rw [if_neg (by simp [hpg])]
  rw [hA] at hexit ⊢
  rcases tickRespTimer_cases s ev with hB | hB
  · rw [hB] at hexit ⊢
    rcases tickCISPower_cases s ev with hC | hC
    · rw [hC] at hexit ⊢
      rcases tickCISTimer_cases s ev with hD | hD
      · rw [hD] at hexit ⊢
        unfold tickSwitch at hexit ⊢
        rw [hpg] at hexit ⊢
        exact pgmingSwitch_exit_dataPort s ev hpg hexit
      · rw [tickSwitch_other _ ev (by rw [hD.1]; simp) (by rw [hD.1]; simp)]
        exact hD.2
    · rcases tickCISTimer_cases (tickCISPower s ev) ev with hD | hD
      · rw [hD]
        exact tickSwitch_poweredDown _ ev hC.1 hC.2
      · rw [tickSwitch_other _ ev (by rw [hD.1]; simp) (by rw [hD.1]; simp)]
        exact hD.2
  · rcases tickCISPower_cases (tickRespTimer s ev) ev with hC | hC
    · rw [hC] at hexit ⊢
      rcases tickCISTimer_cases (tickRespTimer s ev) ev with hD | hD
      · rw [hD] at hexit ⊢
        rw [tickSwitch_other _ ev (by rw [hB.1]; simp) (by rw [hB.1]; simp)]
        exact hB.2
      · rw [tickSwitch_other _ ev (by rw [hD.1]; simp) (by rw [hD.1]; simp)]
        exact hD.2
    · rcases tickCISTimer_cases (tickCISPower (tickRespTimer s ev) ev) ev with hD | hD
      · rw [hD]
        exact tickSwitch_poweredDown _ ev hC.1 hC.2
      · rw [tickSwitch_other _ ev (by rw [hD.1]; simp) (by rw [hD.1]; simp)]
        exact hD.2

/-- C6 witness: a concrete exit — the CIS reset echo arrives while in
SEND_CIS_PORT_CMD on the programming port; the tick returns SUCCESS with the
port back on DATA_PORT. -/
theorem pgming_exit_restores_dataPort_witness :
    (UpdateModemStatePgmingTick
        { engine0 with atCmdState := .pgming, subState := .sendCisPortCmd
                       cisPort := .programmingPort, cisTimerRunning := true }
        { modemRunning := true, voiceCall := false, respExpired := false
          cisPowered := true, cisExpired := false, rsp := .mrSuccess
          captureDone := false, lineAvailable := false, rxByte := none
          rxByte2 := none }).cisPort = .dataPort :=
  pgming_exit_restores_dataPort
    { engine0 with atCmdState := .pgming, subState := .sendCisPortCmd
                   cisPort := .programmingPort, cisTimerRunning := true }
    { modemRunning := true, voiceCall := false, respExpired := false
      cisPowered := true, cisExpired := false, rsp := .mrSuccess
      captureDone := false, lineAvailable := false, rxByte := none
      rxByte2 := none }
    (by decide) (by decide)

/-! ## C8: the background CSQ probe in the API layer's IDLE tick
(ProcessModemStateMachine, MODEM_IDLE arm, src/ModemAPI.c:1641-1762)

The fragment runs when the API state is MODEM_IDLE and the engine reported
AT_CMD_IDLE.  Externals are event inputs: whether HandleQueuedCommands
drained an aux command whose dispatch moved the API to BUSY, the
wait-for-calls expiry, GetMailboxStatus (which itself dispatches the read and
goes BUSY on success), the DSR voice-call line, the RI line, the check_csq
expiry and whether the engine accepted SendCSQCmd, SendFileToModem, and the
check_gateway expiry/acceptance. -/

/-- MODEM_STATES (src/ModemAPI.h:55-63). -/
inductive ModemState
  | MODEM_POWERED_DOWN
  | MODEM_INITTING
  | MODEM_IDLE
  | MODEM_BUSY
deriving DecidableEq

/-- DEFAULT_SBD_STATUS_DELAY (src/ModemAPI.c:69). -/
def DEFAULT_SBD_STATUS_DELAY : Nat := 10000

/-- The API-layer state touched by the MODEM_IDLE tick
(modemOptions / modemConfigurables, src/ModemAPI.c).  Timers are modelled by
the duration they were last armed with (`none` = stopped). -/
structure ApiState where
  modemState : ModemState
  prevModemState : ModemState
  bSendingEnabled : Bool
  bPrevHookState : Bool
  bPrevRIState : Bool
  ModemCmd : ModemCommand
  ModemRsp : ModemCommand → ModemResponse
  thCheckCSQ : Option Nat
  thCheckGateway : Option Nat
  thWaitForCallsRunning : Bool
  dwCheckSigStrengthRate : Nat

/-- SetModemStateBusy (src/ModemAPI.c:2666-2672). -/
def SetModemStateBusy (s : ApiState) (cmd : ModemCommand) : ApiState :=
  { s with prevModemState := s.modemState, modemState := .MODEM_BUSY
           ModemCmd := cmd
           ModemRsp := fun c => if c = cmd then .mrWaiting else s.ModemRsp c }

/-- The externals polled during one MODEM_IDLE tick. -/
structure IdleEvent where
  hqBusy : Bool
  waitForCallsExpired : Bool
  mailboxPending : Bool
  inVoiceCall : Bool
  riHigh : Bool
  callStatusDispatched : Bool
  csqExpired : Bool
  engineAcceptsCsq : Bool
  fileToSend : Bool
  gatewayExpired : Bool
  engineAcceptsGateway : Bool
deriving DecidableEq

/-- What the tick dispatched (for the claims; `idleNone` covers "nothing"). -/
inductive IdleAction
  | idleNone
  | rxingFile
  | callStatus
  | csq
  | sendFile
  | gateway
deriving DecidableEq

/-- The off-hook / ring-indicator edge logging of the IDLE tick
(src/ModemAPI.c:1702-1725): taken when no voice call is in progress; clears
the hook flag and tracks the RI edge.  Only the two edge flags change. -/
def updateEdgeFlags (s : ApiState) (ev : IdleEvent) : ApiState :=
  let s := if s.bPrevHookState then { s with bPrevHookState := false } else s
  if ev.riHigh then
    (if ¬ s.bPrevRIState then { s with bPrevRIState := true } else s)
  else
    (if s.bPrevRIState then { s with bPrevRIState := false } else s)

/-- The MODEM_IDLE arm of ProcessModemStateMachine
(src/ModemAPI.c:1641-1762), for a tick where the engine reported
AT_CMD_IDLE: drain one aux command (possibly going BUSY), re-enable sending
if wait_for_calls elapsed, then in priority order: pending MT download, voice
call (poll CLCC, log hook edges), RI edge log, CSQ probe when its timer
expired (resetting it to csq_poll_rate), file send when sending is enabled,
gateway check when its timer expired and sending is enabled. -/
def ProcessIdleTick (s : ApiState) (ev : IdleEvent) : ApiState × IdleAction :=
  -- src/ModemAPI.c:1647-1659
  let s := if ev.hqBusy then { s with modemState := .MODEM_BUSY } else s
  let s := if ev.waitForCallsExpired then
             { s with bSendingEnabled := true, thWaitForCallsRunning := false }
           else s
  -- src/ModemAPI.c:1670-1674
  if s.modemState ≠ .MODEM_IDLE then
    (s, .idleNone)
  -- src/ModemAPI.c:1678-1683: GetMailboxStatus dispatches the download itself
  else if ev.mailboxPending then
    (SetModemStateBusy s .RXING_FILE, .rxingFile)
  -- src/ModemAPI.c:1688-1701
  else if ev.inVoiceCall then
    let s := if ev.callStatusDispatched then SetModemStateBusy s .CALL_STATUS else s
    let s := if ¬ s.bPrevHookState then { s with bPrevHookState := true } else s
    (s, if ev.callStatusDispatched then .callStatus else .idleNone)
  else
    let u := updateEdgeFlags s ev
    -- src/ModemAPI.c:1727-1738: note there is NO bSendingEnabled test here
    if ev.csqExpired ∧ ev.engineAcceptsCsq then
      let u2 := SetModemStateBusy u .GETTING_CSQ
      ({ u2 with thCheckCSQ := some u2.dwCheckSigStrengthRate }, .csq)
    -- src/ModemAPI.c:1740-1760
    else if u.bSendingEnabled ∧ ev.fileToSend then
      (SetModemStateBusy u .TXING_FILE, .sendFile)
    else if u.bSendingEnabled ∧ ev.gatewayExpired ∧ ev.engineAcceptsGateway then
      ({ SetModemStateBusy u .GATEWAY_CHECK with
         thCheckGateway := some DEFAULT_SBD_STATUS_DELAY }, .gateway)
    else
      (u, .idleNone)

/-- A concrete API state for C8: IDLE with sending DISABLED. -/
def api0 : ApiState :=
  { modemState := .MODEM_IDLE, prevModemState := .MODEM_IDLE
    bSendingEnabled := false, bPrevHookState := false, bPrevRIState := false
    ModemCmd := .NO_CMD, ModemRsp := fun _ => .mrNoResp
    thCheckCSQ := some 0, thCheckGateway := some 10000
    thWaitForCallsRunning := false, dwCheckSigStrengthRate := 150000 }

/-- The C8 counterexample event: only the CSQ timer has expired; sending is
disabled in api0. -/
def idleEvent0 : IdleEvent :=
  { hqBusy := false, waitForCallsExpired := false, mailboxPending := false
    inVoiceCall := false, riHigh := false, callStatusDispatched := false
    csqExpired := true, engineAcceptsCsq := true, fileToSend := false
    gatewayExpired := false, engineAcceptsGateway := false }

/-- C8 counterexample: with sending disabled (bSendingEnabled = false) and the
check_csq timer expired, the IDLE tick still dispatches the CSQ probe — the
claim's "and sending is allowed" gate does not exist in the code
(src/ModemAPI.c:1727-1738 tests only the timer). -/
theorem csq_dispatch_ignores_sendingEnabled :
    (ProcessIdleTick api0 idleEvent0).2 = .csq ∧
    api0.bSendingEnabled = false ∧
    (ProcessIdleTick api0 idleEvent0).1.thCheckCSQ =
      some api0.dwCheckSigStrengthRate := by
  refine ⟨rfl, rfl, rfl⟩

/-- C8 (amended): the IDLE tick dispatches send_csq exactly when the aux-queue
drain left the API in IDLE, no MT message is pending, no voice call is in
progress, the check_csq timer has expired and the engine accepts the command —
sending_enabled is NOT consulted; on dispatch the timer is reset to
csq_poll_rate (dwCheckSigStrengthRate), the API goes BUSY on GETTING_CSQ and
the per-command response is set to WAITING. -/
theorem updateEdgeFlags_frame (s : ApiState) (ev : IdleEvent) :
    (updateEdgeFlags s ev).modemState = s.modemState ∧
    (updateEdgeFlags s ev).bSendingEnabled = s.bSendingEnabled ∧
    (updateEdgeFlags s ev).dwCheckSigStrengthRate = s.dwCheckSigStrengthRate := by
  unfold updateEdgeFlags
  refine ⟨?_, ?_, ?_⟩ <;> (dsimp only; split_ifs <;> rfl)

theorem ProcessIdleTick_csq_spec (s : ApiState) (ev : IdleEvent) :
    ((ProcessIdleTick s ev).2 = .csq ↔
      (¬ ev.hqBusy ∧ s.modemState = .MODEM_IDLE) ∧ ¬ ev.mailboxPending ∧
        ¬ ev.inVoiceCall ∧ ev.csqExpired ∧ ev.engineAcceptsCsq) ∧
    ((ProcessIdleTick s ev).2 = .csq →
      (ProcessIdleTick s ev).1.thCheckCSQ = some s.dwCheckSigStrengthRate ∧
      (ProcessIdleTick s ev).1.modemState = .MODEM_BUSY ∧
      (ProcessIdleTick s ev).1.ModemCmd = .GETTING_CSQ ∧
      (ProcessIdleTick s ev).1.ModemRsp .GETTING_CSQ = .mrWaiting) := by
  obtain ⟨hf1, hf2, hf3⟩ := updateEdgeFlags_frame s ev
  simp only [ProcessIdleTick]
  rcases hq : ev.hqBusy with _ | _ <;>
    rcases hw : ev.waitForCallsExpired with _ | _ <;>
      rcases hm : ev.mailboxPending with _ | _ <;>
        rcases hv : ev.inVoiceCall with _ | _ <;>
          rcases hcs : ev.callStatusDispatched with _ | _ <;>
            simp only [Bool.false_eq_true, Bool.true_eq_false, if_true, if_false,
              reduceIte, not_false_iff, not_true] <;>
  split_ifs <;>
    simp_all [SetModemStateBusy, updateEdgeFlags_frame]

/-- C8 witness: the amended theorem applied at a sending-enabled IDLE state
with the CSQ timer expired. -/
theorem ProcessIdleTick_csq_spec_witness :
    (ProcessIdleTick { api0 with bSendingEnabled := true } idleEvent0).2 = .csq :=
  (ProcessIdleTick_csq_spec { api0 with bSendingEnabled := true } idleEvent0).1.mpr
    ⟨⟨by decide, rfl⟩, by decide, by decide, by decide, by decide⟩

end IridiumModem
